import Mathlib

/-!
Shallow embedding of `ray/autoscaler/_private/kubernetes/config.py`.

The module bootstraps Kubernetes control-plane resources (namespace, service
account, role, role binding, services) for the Ray autoscaler.  The cluster
API (an external collaborator reached through `core_api()` / `auth_api()`) is
modelled as an explicit `ClusterState` threaded through every step, together
with a trace of the collaborator calls issued and of the log lines emitted.
Python exceptions (`ValueError`, `InvalidNamespaceError`, `AssertionError`,
`KeyError`) become the error branch of `Except`; the `ApiException` that the
namespace existence check may observe is selected by `ApiEnv`.
-/

deriving instance DecidableEq for Except

namespace RayKube

/-- Object metadata of a declared resource: a mandatory name and an optional
namespace (the `namespace` key may be absent in the input configuration). -/
structure Metadata where
  name : String
  ns : Option String
deriving DecidableEq

/-- A declared resource (service account, role, or service): metadata plus a
kind-specific payload that the engine only ever compares for equality. -/
structure Resource where
  metadata : Metadata
  payload : List (String × String)
deriving DecidableEq

/-- A subject of a role binding: a name and an optional namespace. -/
structure Subject where
  name : String
  ns : Option String
deriving DecidableEq

/-- A declared role binding: metadata, subjects, and an opaque payload. -/
structure RoleBinding where
  metadata : Metadata
  subjects : List Subject
  payload : List (String × String)
deriving DecidableEq

/-- The `provider` section of the autoscaler configuration.  `ns` embeds the
`namespace` key (`none` when the key is absent); each resource key is
optional. -/
structure ProviderConfig where
  use_internal_ips : Bool
  ns : Option String
  autoscaler_service_account : Option Resource
  autoscaler_role : Option Resource
  autoscaler_role_binding : Option RoleBinding
  services : Option (List Resource)
deriving DecidableEq

/-- Per-container resource strings, as found under `requests` / `limits`. -/
structure ResourceFields where
  cpu : Option String
  gpu : Option String
deriving DecidableEq

/-- The `resources` section of a container spec. -/
structure ContainerResources where
  requests : Option ResourceFields
  limits : Option ResourceFields
deriving DecidableEq

/-- A container spec; only its optional `resources` section is consulted. -/
structure ContainerData where
  resources : Option ContainerResources
deriving DecidableEq

/-- One entry of `available_node_types`: the container list found under
`node_config.spec.containers` and the optional `resources` override map. -/
structure NodeType where
  containers : List ContainerData
  resources : Option (List (String × Nat))
deriving DecidableEq

/-- The whole autoscaler configuration: the provider section plus the
optional `available_node_types` map (an association list keyed by type
name). -/
structure Config where
  provider : ProviderConfig
  available_node_types : Option (List (String × NodeType))
deriving DecidableEq

/-- State of the cluster as visible through the collaborator interface.
Namespaced resources are stored with the namespace they were created in.
Field-selector queries (`metadata.name=...`) become list filters. -/
structure ClusterState where
  namespaces : List String
  service_accounts : List (String × Resource)
  roles : List (String × Resource)
  role_bindings : List (String × RoleBinding)
  services : List (String × Resource)
deriving DecidableEq

/-- Behaviour of the cluster API transport: whether the namespace existence
check (`core_api().list_namespace`) raises `ApiException`. -/
structure ApiEnv where
  list_namespace_fails : Bool
deriving DecidableEq

/-- One collaborator (cluster API) call, with its arguments. -/
inductive ApiCall where
  | list_namespace (sel : String)
  | create_namespace (name : String)
  | list_service_account (ns name : String)
  | create_service_account (ns : String) (body : Resource)
  | list_role (ns name : String)
  | create_role (ns : String) (body : Resource)
  | list_role_binding (ns name : String)
  | create_role_binding (ns : String) (body : RoleBinding)
  | list_service (ns name : String)
  | create_service (ns : String) (body : Resource)
  | patch_service (name ns : String) (body : Resource)
deriving DecidableEq

/-- Severity of a log line. -/
inductive LogLevel where
  | info
  | warning
  | debug
deriving DecidableEq

/-- A log line, recorded structurally: each constructor embeds one of the
message helpers of the module (`using_existing_msg` and friends). -/
inductive LogEvent where
  | usingExisting (resource_type name : String)
  | updatingExisting (resource_type name : String)
  | notFound (resource_type name : String)
  | notChecking (resource_type name : String)
  | created (resource_type name : String)
  | notProvided (resource_type : String)
deriving DecidableEq

/-- What `InvalidNamespaceError` is raised about: a configuration field, or a
role-binding subject (the source builds the field name
`autoscaler_role_binding subject <name>` for the latter). -/
inductive FieldRef where
  | field (f : String)
  | subject (f : String) (subject_name : String)
deriving DecidableEq

/-- The error outcomes of the module.  `externalIpUnsupported` embeds the
`ValueError` that `bootstrap_kubernetes` builds for `use_internal_ips` false
(the source returns that error object instead of the config; either way the
caller receives the error, so it is the error branch here).
`assertionFailed` embeds the Python `assert len(...) == 1`. -/
inductive PyError where
  | externalIpUnsupported
  | missingNamespace
  | invalidNamespace (ref : FieldRef) (ns : String)
  | assertionFailed
  | keyError (k : String)
  | indexError
  | parseError
deriving DecidableEq

/-- Result of one bootstrap step: the value or the exception, the cluster
state after the step (calls already made stay made even when an exception
aborts the step), the collaborator calls issued, and the log lines emitted. -/
abbrev StepResult (α : Type) :=
  Except PyError α × ClusterState × List ApiCall × List (LogLevel × LogEvent)

/-- Outcome of reconciling one resource kind. -/
inductive Outcome where
  | Skipped
  | UsedExisting
  | Created
  | Updated
deriving DecidableEq

/-- Outcome of namespace resolution: found, created, or not checked because
the existence query failed (degraded mode). -/
inductive NsOutcome where
  | usedExisting
  | created
  | notChecked
deriving DecidableEq

/-- Reconcile outcomes of one whole bootstrap run, one slot per step (the
services slot lists one outcome per service the loop actually processed). -/
structure BootOutcomes where
  ns_outcome : NsOutcome
  account : Outcome
  role : Outcome
  role_binding : Outcome
  services : List Outcome
deriving DecidableEq

/-- Python `int()` on a canonical decimal string, over the character list of
the string: `none` embeds the `ValueError` raised on an empty or non-numeric
string. -/
def parseNatDigits (cs : List Char) : Option Nat :=
  if cs.isEmpty then none
  else cs.foldlM
    (fun acc c =>
      if c.isDigit then some (acc * 10 + (c.toNat - ('0').toNat)) else none) 0

/-- Python `str.upper()`, over the character list of the string. -/
def pyUpper (s : String) : String :=
  ⟨s.data.map Char.toUpper⟩

/-- Embeds `_parse_resource` (config.py lines 110-115): a trailing `m` means
the ceiling of the numeric prefix divided by 1000, otherwise the string is
parsed as an integer; `none` embeds the `ValueError` that `int()` raises on a
non-numeric string (and the `IndexError` of `resource_str[-1]` on an empty
one). -/
def _parse_resource (resource : String) : Option Nat :=
  match resource.data.getLast? with
  | none => none
  | some c =>
    if c = 'm' then
      (parseNatDigits resource.data.dropLast).map (fun n => (n + 999) / 1000)
    else
      parseNatDigits resource.data

/-- Lookup of `container_resources[field_name]` for the two field names the
module uses. -/
def containerGet (container_resources : ContainerResources)
    (field_name : String) : Option ResourceFields :=
  if field_name = "requests" then container_resources.requests
  else if field_name = "limits" then container_resources.limits
  else none

/-- Lookup of `container_resources[field_name][resource_name]` for the two
resource names the module uses. -/
def fieldsGet (fields : ResourceFields) (resource_name : String) :
    Option String :=
  if resource_name = "cpu" then fields.cpu
  else if resource_name = "gpu" then fields.gpu
  else none

/-- Embeds `_get_resource` (config.py lines 102-107): `.ok none` is the
absent case (Python `float("inf")`), `.ok (some v)` a parsed value, and
`.error` a parse failure. -/
def _get_resource (container_resources : ContainerResources)
    (resource_name field_name : String) : Except PyError (Option Nat) :=
  match containerGet container_resources field_name with
  | none => .ok none
  | some fields =>
    match fieldsGet fields resource_name with
    | none => .ok none
    | some s =>
      match _parse_resource s with
      | none => .error .parseError
      | some v => .ok v

/-- Minimum on `Option Nat` where `none` plays `float("inf")`. -/
def minInf : Option Nat → Option Nat → Option Nat
  | none, y => y
  | some x, none => some x
  | some x, some y => some (min x y)

/-- Embeds `get_resource` (config.py lines 93-99): the minimum of the
requests and limits values, 0 when both are absent. -/
def get_resource (container_resources : ContainerResources)
    (resource_name : String) : Except PyError Nat := do
  let request ← _get_resource container_resources resource_name "requests"
  let limit ← _get_resource container_resources resource_name "limits"
  match minInf request limit with
  | none => pure 0
  | some v => pure v

/-- Embeds `get_autodetected_resources` (config.py lines 80-90): `CPU`/`GPU`
amounts keyed by the uppercased resource name, or `{CPU: 0, GPU: 0}` when the
container declares no `resources` section. -/
def get_autodetected_resources (container_data : ContainerData) :
    Except PyError (List (String × Nat)) :=
  match container_data.resources with
  | none => .ok [("CPU", 0), ("GPU", 0)]
  | some container_resources =>
    ["cpu", "gpu"].mapM (fun resource_name =>
      (get_resource container_resources resource_name).map
        (fun v => (pyUpper resource_name, v)))

/-- Python `dict.update`: existing keys keep their position and take the new
value, new keys are appended in order. -/
def dictUpdate (d upd : List (String × Nat)) : List (String × Nat) :=
  (d.map (fun p =>
    match upd.find? (fun q => q.1 == p.1) with
    | some q => (p.1, q.2)
    | none => p))
  ++ upd.filter (fun q => !(d.any (fun p => p.1 == q.1)))

/-- One iteration of the `fillout_resources_kubernetes` loop (config.py lines
66-76): read `containers[0]` (`indexError` when the list is empty), autodetect
its resources, and merge them over the node type's `resources` map (an absent
map counts as empty, as in lines 70-71). -/
def fillout_node_type (nt : NodeType) : Except PyError NodeType :=
  match nt.containers with
  | [] => .error .indexError
  | container_data :: _ =>
    (get_autodetected_resources container_data).map (fun auto =>
      { nt with resources := some (dictUpdate (nt.resources.getD []) auto) })

/-- Embeds `fillout_resources_kubernetes` (config.py lines 62-77).  The guard
branch reads `config["available_node_types"]` when that key is absent, which
raises `KeyError` (line 64). -/
def fillout_resources_kubernetes (config : Config) : Except PyError Config :=
  match config.available_node_types with
  | none => .error (.keyError "available_node_types")
  | some node_types =>
    (node_types.mapM (fun p =>
      (fillout_node_type p.2).map (fun nt => (p.1, nt)))).map
      (fun upd => { config with available_node_types := some upd })

/-- Embeds the namespace back-fill / validation pattern repeated at lines
154-157, 180-183 and 240-243: an absent namespace is set to the working
namespace, a different one raises `InvalidNamespaceError`. -/
def resolve_resource_namespace (nsp : String) (ref : FieldRef)
    (r : Resource) : Except PyError Resource :=
  match r.metadata.ns with
  | none => .ok { r with metadata := { r.metadata with ns := some nsp } }
  | some m =>
    if m = nsp then .ok r
    else .error (.invalidNamespace ref nsp)

/-- Embeds the subjects loop of `_configure_autoscaler_role_binding` (config.py
lines 210-216): back-fill or validate each subject's namespace in order. -/
def backfill_subjects (nsp : String) : List Subject →
    Except PyError (List Subject)
  | [] => .ok []
  | s :: rest =>
    match s.ns with
    | none =>
      (backfill_subjects nsp rest).map (fun r => { s with ns := some nsp } :: r)
    | some m =>
      if m = nsp then (backfill_subjects nsp rest).map (fun r => s :: r)
      else .error (.invalidNamespace (.subject "autoscaler_role_binding" s.name) nsp)

/-- Metadata and subjects resolution of a role binding (config.py lines
205-216). -/
def resolve_binding_namespace (nsp : String) (b : RoleBinding) :
    Except PyError RoleBinding := do
  let md ←
    match b.metadata.ns with
    | none => pure { b.metadata with ns := some nsp }
    | some m =>
      if m = nsp then pure b.metadata
      else throw (.invalidNamespace (.field "autoscaler_role_binding") nsp)
  let subs ← backfill_subjects nsp b.subjects
  pure { b with metadata := md, subjects := subs }

/-- Embeds `_configure_namespace` (config.py lines 118-144).  When the
existence query raises `ApiException` (selected by `env`), the failure is
non-fatal: a warning is logged and the configured namespace returned. -/
def _configure_namespace (env : ApiEnv) (provider_config : ProviderConfig)
    (st : ClusterState) : StepResult (String × NsOutcome) :=
  match provider_config.ns with
  | none => (.error .missingNamespace, st, [], [])
  | some nsp =>
    if env.list_namespace_fails then
      (.ok (nsp, .notChecked), st, [.list_namespace nsp],
        [(.warning, .notChecking "namespace" nsp)])
    else
      let items := st.namespaces.filter (fun n => n == nsp)
      if items.length > 0 then
        if items.length = 1 then
          (.ok (nsp, .usedExisting), st, [.list_namespace nsp],
            [(.info, .usingExisting "namespace" nsp)])
        else
          (.error .assertionFailed, st, [.list_namespace nsp], [])
      else
        (.ok (nsp, .created),
          { st with namespaces := st.namespaces ++ [nsp] },
          [.list_namespace nsp, .create_namespace nsp],
          [(.info, .notFound "namespace" nsp),
           (.info, .created "namespace" nsp)])

/-- Embeds `_configure_autoscaler_service_account` (config.py lines 147-170).
The in-place mutation of the account dict is modelled by returning the
updated provider configuration; on a fatal error the partially updated
configuration is not observed by any caller and is dropped. -/
def _configure_autoscaler_service_account (nsp : String)
    (provider_config : ProviderConfig) (st : ClusterState) :
    StepResult (ProviderConfig × Outcome) :=
  match provider_config.autoscaler_service_account with
  | none =>
    (.ok (provider_config, .Skipped), st, [],
      [(.info, .notProvided "autoscaler_service_account")])
  | some account0 =>
    match resolve_resource_namespace nsp (.field "autoscaler_service_account")
        account0 with
    | .error e => (.error e, st, [], [])
    | .ok account =>
      let name := account.metadata.name
      let items := st.service_accounts.filter
        (fun p => p.1 == nsp && p.2.metadata.name == name)
      let pc := { provider_config with autoscaler_service_account := some account }
      if items.length > 0 then
        if items.length = 1 then
          (.ok (pc, .UsedExisting), st, [.list_service_account nsp name],
            [(.info, .usingExisting "autoscaler_service_account" name)])
        else
          (.error .assertionFailed, st, [.list_service_account nsp name], [])
      else
        (.ok (pc, .Created),
          { st with service_accounts := st.service_accounts ++ [(nsp, account)] },
          [.list_service_account nsp name, .create_service_account nsp account],
          [(.info, .notFound "autoscaler_service_account" name),
           (.info, .created "autoscaler_service_account" name)])

/-- Embeds `_configure_autoscaler_role` (config.py lines 173-196). -/
def _configure_autoscaler_role (nsp : String)
    (provider_config : ProviderConfig) (st : ClusterState) :
    StepResult (ProviderConfig × Outcome) :=
  match provider_config.autoscaler_role with
  | none =>
    (.ok (provider_config, .Skipped), st, [],
      [(.info, .notProvided "autoscaler_role")])
  | some role0 =>
    match resolve_resource_namespace nsp (.field "autoscaler_role") role0 with
    | .error e => (.error e, st, [], [])
    | .ok role =>
      let name := role.metadata.name
      let items := st.roles.filter
        (fun p => p.1 == nsp && p.2.metadata.name == name)
      let pc := { provider_config with autoscaler_role := some role }
      if items.length > 0 then
        if items.length = 1 then
          (.ok (pc, .UsedExisting), st, [.list_role nsp name],
            [(.info, .usingExisting "autoscaler_role" name)])
        else
          (.error .assertionFailed, st, [.list_role nsp name], [])
      else
        (.ok (pc, .Created),
          { st with roles := st.roles ++ [(nsp, role)] },
          [.list_role nsp name, .create_role nsp role],
          [(.info, .notFound "autoscaler_role" name),
           (.info, .created "autoscaler_role" name)])

/-- Embeds `_configure_autoscaler_role_binding` (config.py lines 199-229). -/
def _configure_autoscaler_role_binding (nsp : String)
    (provider_config : ProviderConfig) (st : ClusterState) :
    StepResult (ProviderConfig × Outcome) :=
  match provider_config.autoscaler_role_binding with
  | none =>
    (.ok (provider_config, .Skipped), st, [],
      [(.info, .notProvided "autoscaler_role_binding")])
  | some binding0 =>
    match resolve_binding_namespace nsp binding0 with
    | .error e => (.error e, st, [], [])
    | .ok binding =>
      let name := binding.metadata.name
      let items := st.role_bindings.filter
        (fun p => p.1 == nsp && p.2.metadata.name == name)
      let pc := { provider_config with autoscaler_role_binding := some binding }
      if items.length > 0 then
        if items.length = 1 then
          (.ok (pc, .UsedExisting), st, [.list_role_binding nsp name],
            [(.info, .usingExisting "autoscaler_role_binding" name)])
        else
          (.error .assertionFailed, st, [.list_role_binding nsp name], [])
      else
        (.ok (pc, .Created),
          { st with role_bindings := st.role_bindings ++ [(nsp, binding)] },
          [.list_role_binding nsp name, .create_role_binding nsp binding],
          [(.info, .notFound "autoscaler_role_binding" name),
           (.info, .created "autoscaler_role_binding" name)])

/-- Embeds the loop body of `_configure_services` (config.py lines 239-262),
one recursive step per declared service.  The structural match on the query
result encodes `if len(services) > 0: assert len(services) == 1`.  In the
branch where the desired service equals the existing one the source executes
`return`, which exits the whole loop: the remaining services are returned
unprocessed and receive no outcome.  In the patch and create branches the
loop continues. -/
def _configure_services_loop (nsp : String) (st : ClusterState) :
    List Resource → StepResult (List Resource × List Outcome)
  | [] => (.ok ([], []), st, [], [])
  | service0 :: rest =>
    match resolve_resource_namespace nsp (.field "services") service0 with
    | .error e => (.error e, st, [], [])
    | .ok service =>
      let name := service.metadata.name
      let items := st.services.filter
        (fun p => p.1 == nsp && p.2.metadata.name == name)
      match items with
      | [] =>
        let st1 := { st with services := st.services ++ [(nsp, service)] }
        match _configure_services_loop nsp st1 rest with
        | (res, st2, calls, logs) =>
          (res.map (fun q => (service :: q.1, Outcome.Created :: q.2)), st2,
            .list_service nsp name :: .create_service nsp service :: calls,
            (.info, .notFound "service" name) ::
              (.info, .created "service" name) :: logs)
      | [(_, existing)] =>
        if service = existing then
          (.ok (service :: rest, [.UsedExisting]), st,
            [.list_service nsp name],
            [(.info, .usingExisting "service" name)])
        else
          let st1 := { st with services := st.services.map (fun p =>
            if p.1 == nsp && p.2.metadata.name == name then (nsp, service)
            else p) }
          match _configure_services_loop nsp st1 rest with
          | (res, st2, calls, logs) =>
            (res.map (fun q => (service :: q.1, Outcome.Updated :: q.2)), st2,
              .list_service nsp name :: .patch_service name nsp service :: calls,
              (.info, .updatingExisting "service" name) :: logs)
      | _ :: _ :: _ =>
        (.error .assertionFailed, st, [.list_service nsp name], [])

/-- Embeds `_configure_services` (config.py lines 232-262). -/
def _configure_services (nsp : String) (provider_config : ProviderConfig)
    (st : ClusterState) : StepResult (ProviderConfig × List Outcome) :=
  match provider_config.services with
  | none =>
    (.ok (provider_config, []), st, [], [(.info, .notProvided "services")])
  | some svcs =>
    match _configure_services_loop nsp st svcs with
    | (res, st1, calls, logs) =>
      (res.map (fun q => ({ provider_config with services := some q.1 }, q.2)),
        st1, calls, logs)

/-- Steps 3-6 of `bootstrap_kubernetes` (config.py lines 55-58): the four
reconciliations run in order on the namespace resolved earlier, threading the
configuration, the cluster state and the traces. -/
def bootstrap_rest (nsp : String) (nsOut : NsOutcome) (config : Config)
    (st : ClusterState) : StepResult (Config × BootOutcomes) :=
  match _configure_autoscaler_service_account nsp config.provider st with
  | (.error e, st1, c1, l1) => (.error e, st1, c1, l1)
  | (.ok (pc1, o1), st1, c1, l1) =>
    match _configure_autoscaler_role nsp pc1 st1 with
    | (.error e, st2, c2, l2) => (.error e, st2, c1 ++ c2, l1 ++ l2)
    | (.ok (pc2, o2), st2, c2, l2) =>
      match _configure_autoscaler_role_binding nsp pc2 st2 with
      | (.error e, st3, c3, l3) =>
        (.error e, st3, c1 ++ c2 ++ c3, l1 ++ l2 ++ l3)
      | (.ok (pc3, o3), st3, c3, l3) =>
        match _configure_services nsp pc3 st3 with
        | (.error e, st4, c4, l4) =>
          (.error e, st4, c1 ++ c2 ++ c3 ++ c4, l1 ++ l2 ++ l3 ++ l4)
        | (.ok (pc4, outs), st4, c4, l4) =>
          (.ok ({ config with provider := pc4 },
              ⟨nsOut, o1, o2, o3, outs⟩),
            st4, c1 ++ c2 ++ c3 ++ c4, l1 ++ l2 ++ l3 ++ l4)

/-- Embeds `bootstrap_kubernetes` (config.py lines 48-59): reject external
IPs before any collaborator call, resolve the namespace, then run the four
reconciliation steps. -/
def bootstrap_kubernetes (env : ApiEnv) (config : Config)
    (st : ClusterState) : StepResult (Config × BootOutcomes) :=
  if config.provider.use_internal_ips = false then
    (.error .externalIpUnsupported, st, [], [])
  else
    match _configure_namespace env config.provider st with
    | (.error e, st1, c1, l1) => (.error e, st1, c1, l1)
    | (.ok (nsp, nsOut), st1, c1, l1) =>
      match bootstrap_rest nsp nsOut config st1 with
      | (res, st2, c2, l2) => (res, st2, c1 ++ c2, l1 ++ l2)

/-! Specification-side restatement of the resource-autodetection formula,
written from the spec text, to be compared with the embedded code. -/

/-- Specification reading of quantity parsing: a value with a trailing `m`
suffix is divided by 1000 and rounded up to the nearest integer; a bare
numeric string is parsed directly as an integer. -/
def spec_parse (s : String) : Except PyError Nat :=
  if s.data.getLast? = some 'm' then
    match parseNatDigits s.data.dropLast with
    | some n => .ok (n ⌈/⌉ 1000)
    | none => .error .parseError
  else
    match parseNatDigits s.data with
    | some n => .ok n
    | none => .error .parseError

/-- Specification reading of one detected amount: each of the two fields is
optionally absent and treated as plus infinity when absent; the amount is the
minimum of the two, and 0 when both are absent. -/
def spec_amount (request limit : Option String) : Except PyError Nat :=
  match request, limit with
  | none, none => .ok 0
  | some r, none => spec_parse r
  | none, some l => spec_parse l
  | some r, some l => do
    let a ← spec_parse r
    let b ← spec_parse l
    pure (min a b)

theorem spec_parse_eq (s : String) :
    spec_parse s =
      match _parse_resource s with
      | none => .error .parseError
      | some v => .ok v := by
  have hceil : ∀ n : Nat, n ⌈/⌉ 1000 = (n + 999) / 1000 := fun n =>
    Nat.ceilDiv_eq_add_pred_div n 1000
  unfold spec_parse _parse_resource
  cases h : s.data.getLast? with
  | none =>
    have hnil : s.data = [] := by
      cases hd : s.data with
      | nil => rfl
      | cons a t => rw [hd] at h; simp [List.getLast?] at h
    simp [h, hnil, parseNatDigits]
  | some c =>
    by_cases hc : c = 'm'
    · subst hc
      simp only [h, if_pos rfl]
      cases parseNatDigits s.data.dropLast <;> simp [Option.map, hceil]
    · have hne : ¬ (some c = some 'm') := by simp [hc]
      simp only [h, if_neg hne]
      cases parseNatDigits s.data <;> simp [Option.map, hc]

/-- C1: for every provider configuration with `use_internal_ips` false,
bootstrap fails immediately with the external-IP-unsupported error, leaves
the cluster state untouched, and issues zero collaborator calls. -/
theorem C1_external_ip_rejected (env : ApiEnv) (config : Config)
    (st : ClusterState) (h : config.provider.use_internal_ips = false) :
    bootstrap_kubernetes env config st =
      (.error .externalIpUnsupported, st, [], []) := by
  simp [bootstrap_kubernetes, h]

theorem C1_external_ip_rejected_witness :
    (⟨⟨false, some "ray", none, none, none, none⟩, none⟩ :
        Config).provider.use_internal_ips = false ∧
    bootstrap_kubernetes ⟨false⟩
        ⟨⟨false, some "ray", none, none, none, none⟩, none⟩
        ⟨[], [], [], [], []⟩ =
      (.error .externalIpUnsupported, ⟨[], [], [], [], []⟩, [], []) :=
  ⟨rfl, C1_external_ip_rejected ⟨false⟩ _ _ rfl⟩

/-- C10: for every configuration without the `available_node_types` key,
`fillout_resources_kubernetes` does not return the configuration unchanged:
its guard branch reads the absent key, so the call fails with a key-lookup
error. -/
theorem C10_fillout_missing_key (config : Config)
    (h : config.available_node_types = none) :
    fillout_resources_kubernetes config =
      .error (.keyError "available_node_types") := by
  simp [fillout_resources_kubernetes, h]

theorem C10_fillout_missing_key_witness :
    (⟨⟨true, some "ray", none, none, none, none⟩, none⟩ :
        Config).available_node_types = none ∧
    fillout_resources_kubernetes
        ⟨⟨true, some "ray", none, none, none, none⟩, none⟩ =
      .error (.keyError "available_node_types") :=
  ⟨rfl, C10_fillout_missing_key _ rfl⟩

/-- C8: for each container and each of cpu and gpu, the autodetected amount
is the minimum of the parsed `requests` and `limits` values with an absent
field as plus infinity, 0 when both are absent, where a trailing-`m` string
parses to the ceiling of its numeric prefix over 1000 and a bare numeric
string to its integer value, and the output is keyed by the uppercased
resource name; in particular requests.cpu 500m with limits.cpu 1 gives CPU 1,
an absent requests.gpu with limits.gpu 2 gives GPU 2, and two absent cpu
fields give CPU 0. -/
theorem C8_resource_autodetection :
    (∀ (container_resources : ContainerResources) (resource_name : String),
      get_resource container_resources resource_name =
        spec_amount
          ((containerGet container_resources "requests").bind
            (fun f => fieldsGet f resource_name))
          ((containerGet container_resources "limits").bind
            (fun f => fieldsGet f resource_name))) ∧
    (∀ (container_resources : ContainerResources),
      get_autodetected_resources ⟨some container_resources⟩ =
        do
          let c ← get_resource container_resources "cpu"
          let g ← get_resource container_resources "gpu"
          pure [("CPU", c), ("GPU", g)]) ∧
    get_resource ⟨some ⟨some "500m", none⟩, some ⟨some "1", none⟩⟩ "cpu" =
      .ok 1 ∧
    get_autodetected_resources
        ⟨some ⟨some ⟨some "500m", none⟩, some ⟨some "1", some "2"⟩⟩⟩ =
      .ok [("CPU", 1), ("GPU", 2)] ∧
    get_resource ⟨none, none⟩ "cpu" = .ok 0 := by
  refine ⟨?_, ?_, by decide, by decide, by decide⟩
  · intro cr rn
    have hreq : containerGet cr "requests" = cr.requests := by
      simp [containerGet]
    have hlim : containerGet cr "limits" = cr.limits := by
      simp [containerGet]
    simp only [get_resource, _get_resource, hreq, hlim]
    cases cr.requests with
    | none =>
      cases cr.limits with
      | none => simp [spec_amount, minInf, bind, Except.bind, Option.bind, pure, Except.pure]
      | some fl =>
        cases hfl : fieldsGet fl rn with
        | none => simp [spec_amount, minInf, bind, Except.bind, Option.bind, pure, Except.pure, hfl]
        | some sl =>
          simp only [Option.bind, bind, Except.bind, hfl, spec_amount,
            spec_parse_eq]
          cases _parse_resource sl <;> simp [minInf, pure, Except.pure, bind, Except.bind]
    | some fr =>
      cases hfr : fieldsGet fr rn with
      | none =>
        cases cr.limits with
        | none => simp [spec_amount, minInf, bind, Except.bind, Option.bind, pure, Except.pure, hfr]
        | some fl =>
          cases hfl : fieldsGet fl rn with
          | none =>
            simp [spec_amount, minInf, bind, Except.bind, Option.bind, pure, Except.pure, hfr, hfl]
          | some sl =>
            simp only [Option.bind, bind, Except.bind, hfr, hfl, spec_amount,
              spec_parse_eq]
            cases _parse_resource sl <;> simp [minInf, pure, Except.pure, bind, Except.bind]
      | some sr =>
        cases cr.limits with
        | none =>
          simp only [Option.bind, bind, Except.bind, hfr, spec_amount,
            spec_parse_eq]
          cases _parse_resource sr <;> simp [minInf, pure, Except.pure, bind, Except.bind]
        | some fl =>
          cases hfl : fieldsGet fl rn with
          | none =>
            simp only [Option.bind, bind, Except.bind, hfr, hfl, spec_amount,
              spec_parse_eq]
            cases _parse_resource sr <;> simp [minInf, pure, Except.pure, bind, Except.bind]
          | some sl =>
            simp only [Option.bind, bind, Except.bind, hfr, hfl, spec_amount,
              spec_parse_eq]
            cases _parse_resource sr <;> cases _parse_resource sl <;>
              simp [minInf, pure, Except.pure]
  · intro cr
    simp only [get_autodetected_resources, List.mapM, List.mapM.loop]
    cases hc : get_resource cr "cpu" <;> cases hg : get_resource cr "gpu" <;>
      simp [bind, Except.bind, Except.map, pure, Except.pure, hc, hg,
        List.mapM.loop, pyUpper]

/-- C4: for a declared service whose resolved (namespace, name) identity
matches exactly one existing service: equal specs give `UsedExisting` with no
update call; specs differing in any field give exactly one patch call
carrying the desired spec and the outcome `Updated`. -/
theorem C4_service_diffing (nsp : String) (pc : ProviderConfig)
    (st : ClusterState) (s s' existing : Resource)
    (hsvc : pc.services = some [s])
    (hres : resolve_resource_namespace nsp (.field "services") s = .ok s')
    (hone : st.services.filter
        (fun p => p.1 == nsp && p.2.metadata.name == s'.metadata.name) =
      [(nsp, existing)]) :
    (s' = existing →
      _configure_services nsp pc st =
        (.ok ({ pc with services := some [s'] }, [.UsedExisting]), st,
          [.list_service nsp s'.metadata.name],
          [(.info, .usingExisting "service" s'.metadata.name)])) ∧
    (s' ≠ existing →
      _configure_services nsp pc st =
        (.ok ({ pc with services := some [s'] }, [.Updated]),
          { st with services := st.services.map (fun p =>
            if p.1 == nsp && p.2.metadata.name == s'.metadata.name then (nsp, s')
            else p) },
          [.list_service nsp s'.metadata.name,
            .patch_service s'.metadata.name nsp s'],
          [(.info, .updatingExisting "service" s'.metadata.name)])) := by
  constructor
  · intro h
    subst h
    simp [_configure_services, _configure_services_loop, hsvc, hres, hone,
      Except.map]
  · intro h
    simp [_configure_services, _configure_services_loop, hsvc, hres, hone, h,
      Except.map]

theorem C4_service_diffing_witness :
    ((⟨true, some "ray", none, none, none,
        some [⟨⟨"svc", none⟩, [("port", "80")]⟩]⟩ :
          ProviderConfig).services =
      some [⟨⟨"svc", none⟩, [("port", "80")]⟩]) ∧
    resolve_resource_namespace "ray" (.field "services")
        ⟨⟨"svc", none⟩, [("port", "80")]⟩ =
      .ok ⟨⟨"svc", some "ray"⟩, [("port", "80")]⟩ ∧
    _configure_services "ray"
        ⟨true, some "ray", none, none, none,
          some [⟨⟨"svc", none⟩, [("port", "80")]⟩]⟩
        ⟨["ray"], [], [], [],
          [("ray", ⟨⟨"svc", some "ray"⟩, [("port", "80")]⟩)]⟩ =
      (.ok (⟨true, some "ray", none, none, none,
          some [⟨⟨"svc", some "ray"⟩, [("port", "80")]⟩]⟩, [.UsedExisting]),
        ⟨["ray"], [], [], [],
          [("ray", ⟨⟨"svc", some "ray"⟩, [("port", "80")]⟩)]⟩,
        [.list_service "ray" "svc"],
        [(.info, .usingExisting "service" "svc")]) :=
  ⟨rfl, rfl,
    (C4_service_diffing "ray"
      ⟨true, some "ray", none, none, none,
        some [⟨⟨"svc", none⟩, [("port", "80")]⟩]⟩
      ⟨["ray"], [], [], [],
        [("ray", ⟨⟨"svc", some "ray"⟩, [("port", "80")]⟩)]⟩
      ⟨⟨"svc", none⟩, [("port", "80")]⟩
      ⟨⟨"svc", some "ray"⟩, [("port", "80")]⟩
      ⟨⟨"svc", some "ray"⟩, [("port", "80")]⟩
      rfl rfl (by decide)).1 rfl⟩

/-- C7: an `ApiException` during the namespace existence check is not fatal:
the resolver logs a warning, returns the configured namespace, and bootstrap
proceeds with the remaining reconciliation steps. -/
theorem C7_namespace_check_degraded (env : ApiEnv) (config : Config)
    (st : ClusterState) (nsp : String)
    (henv : env.list_namespace_fails = true)
    (hns : config.provider.ns = some nsp)
    (hip : config.provider.use_internal_ips = true) :
    _configure_namespace env config.provider st =
      (.ok (nsp, .notChecked), st, [.list_namespace nsp],
        [(.warning, .notChecking "namespace" nsp)]) ∧
    bootstrap_kubernetes env config st =
      ((bootstrap_rest nsp .notChecked config st).1,
        (bootstrap_rest nsp .notChecked config st).2.1,
        .list_namespace nsp :: (bootstrap_rest nsp .notChecked config st).2.2.1,
        (.warning, .notChecking "namespace" nsp) ::
          (bootstrap_rest nsp .notChecked config st).2.2.2) := by
  have h1 : _configure_namespace env config.provider st =
      (.ok (nsp, .notChecked), st, [.list_namespace nsp],
        [(.warning, .notChecking "namespace" nsp)]) := by
    simp [_configure_namespace, hns, henv]
  refine ⟨h1, ?_⟩
  rcases hbr : bootstrap_rest nsp .notChecked config st with ⟨res, st2, c2, l2⟩
  simp [bootstrap_kubernetes, hip, h1, hbr]

theorem C7_namespace_check_degraded_witness :
    ((⟨true⟩ : ApiEnv).list_namespace_fails = true) ∧
    ((⟨⟨true, some "ray", none, none, none, some []⟩, none⟩ :
        Config).provider.ns = some "ray") ∧
    _configure_namespace ⟨true⟩
        (⟨true, some "ray", none, none, none, some []⟩ : ProviderConfig)
        ⟨[], [], [], [], []⟩ =
      (.ok ("ray", .notChecked), ⟨[], [], [], [], []⟩,
        [.list_namespace "ray"],
        [(.warning, .notChecking "namespace" "ray")]) ∧
    bootstrap_kubernetes ⟨true⟩
        ⟨⟨true, some "ray", none, none, none, some []⟩, none⟩
        ⟨[], [], [], [], []⟩ =
      ((bootstrap_rest "ray" .notChecked
          ⟨⟨true, some "ray", none, none, none, some []⟩, none⟩
          ⟨[], [], [], [], []⟩).1,
        (bootstrap_rest "ray" .notChecked
          ⟨⟨true, some "ray", none, none, none, some []⟩, none⟩
          ⟨[], [], [], [], []⟩).2.1,
        .list_namespace "ray" :: (bootstrap_rest "ray" .notChecked
          ⟨⟨true, some "ray", none, none, none, some []⟩, none⟩
          ⟨[], [], [], [], []⟩).2.2.1,
        (.warning, .notChecking "namespace" "ray") ::
          (bootstrap_rest "ray" .notChecked
            ⟨⟨true, some "ray", none, none, none, some []⟩, none⟩
            ⟨[], [], [], [], []⟩).2.2.2) :=
  ⟨rfl, rfl,
    (C7_namespace_check_degraded ⟨true⟩
      ⟨⟨true, some "ray", none, none, none, some []⟩, none⟩
      ⟨[], [], [], [], []⟩ "ray" rfl rfl rfl).1,
    (C7_namespace_check_degraded ⟨true⟩
      ⟨⟨true, some "ray", none, none, none, some []⟩, none⟩
      ⟨[], [], [], [], []⟩ "ray" rfl rfl rfl).2⟩

/-- C9: for every existence query of bootstrap (namespace, service account,
role, role binding, or a declared service), a query result holding more than
one resource for the single (kind, namespace, name) identity makes the
uniqueness assertion fail fatally: the step returns the assertion error, the
cluster state is unchanged, and no create or update call follows the query —
the engine never silently picks one of the resources. -/
theorem C9_duplicate_matches_fatal :
    (∀ (env : ApiEnv) (pc : ProviderConfig) (st : ClusterState)
      (nsp x y : String) (t : List String),
      env.list_namespace_fails = false → pc.ns = some nsp →
      st.namespaces.filter (fun n => n == nsp) = x :: y :: t →
      _configure_namespace env pc st =
        (.error .assertionFailed, st, [.list_namespace nsp], [])) ∧
    (∀ (nsp : String) (pc : ProviderConfig) (st : ClusterState)
      (a a' : Resource) (x y : String × Resource) (t : List (String × Resource)),
      pc.autoscaler_service_account = some a →
      resolve_resource_namespace nsp (.field "autoscaler_service_account") a =
        .ok a' →
      st.service_accounts.filter
        (fun p => p.1 == nsp && p.2.metadata.name == a'.metadata.name) =
        x :: y :: t →
      _configure_autoscaler_service_account nsp pc st =
        (.error .assertionFailed, st,
          [.list_service_account nsp a'.metadata.name], [])) ∧
    (∀ (nsp : String) (pc : ProviderConfig) (st : ClusterState)
      (r r' : Resource) (x y : String × Resource) (t : List (String × Resource)),
      pc.autoscaler_role = some r →
      resolve_resource_namespace nsp (.field "autoscaler_role") r = .ok r' →
      st.roles.filter
        (fun p => p.1 == nsp && p.2.metadata.name == r'.metadata.name) =
        x :: y :: t →
      _configure_autoscaler_role nsp pc st =
        (.error .assertionFailed, st, [.list_role nsp r'.metadata.name], [])) ∧
    (∀ (nsp : String) (pc : ProviderConfig) (st : ClusterState)
      (b b' : RoleBinding) (x y : String × RoleBinding)
      (t : List (String × RoleBinding)),
      pc.autoscaler_role_binding = some b →
      resolve_binding_namespace nsp b = .ok b' →
      st.role_bindings.filter
        (fun p => p.1 == nsp && p.2.metadata.name == b'.metadata.name) =
        x :: y :: t →
      _configure_autoscaler_role_binding nsp pc st =
        (.error .assertionFailed, st,
          [.list_role_binding nsp b'.metadata.name], [])) ∧
    (∀ (nsp : String) (pc : ProviderConfig) (st : ClusterState)
      (s s' : Resource) (rest : List Resource) (x y : String × Resource)
      (t : List (String × Resource)),
      pc.services = some (s :: rest) →
      resolve_resource_namespace nsp (.field "services") s = .ok s' →
      st.services.filter
        (fun p => p.1 == nsp && p.2.metadata.name == s'.metadata.name) =
        x :: y :: t →
      _configure_services nsp pc st =
        (.error .assertionFailed, st, [.list_service nsp s'.metadata.name],
          [])) := by
  refine ⟨?_, ?_, ?_, ?_, ?_⟩
  · intro env pc st nsp x y t henv hns hf
    simp [_configure_namespace, hns, henv, hf]
  · intro nsp pc st a a' x y t hacct hres hf
    simp [_configure_autoscaler_service_account, hacct, hres, hf]
  · intro nsp pc st r r' x y t hrole hres hf
    simp [_configure_autoscaler_role, hrole, hres, hf]
  · intro nsp pc st b b' x y t hbind hres hf
    simp [_configure_autoscaler_role_binding, hbind, hres, hf]
  · intro nsp pc st s s' rest x y t hsvc hres hf
    simp [_configure_services, _configure_services_loop, hsvc, hres, hf,
      Except.map]

theorem C9_duplicate_matches_fatal_witness :
    _configure_namespace ⟨false⟩
        (⟨true, some "ray", none, none, none, none⟩ : ProviderConfig)
        ⟨["ray", "ray"], [], [], [], []⟩ =
      (.error .assertionFailed, ⟨["ray", "ray"], [], [], [], []⟩,
        [.list_namespace "ray"], []) ∧
    _configure_autoscaler_service_account "ray"
        (⟨true, some "ray", some ⟨⟨"a", some "ray"⟩, []⟩, none, none, none⟩ :
          ProviderConfig)
        ⟨[], [("ray", ⟨⟨"a", some "ray"⟩, []⟩),
          ("ray", ⟨⟨"a", some "ray"⟩, []⟩)], [], [], []⟩ =
      (.error .assertionFailed,
        ⟨[], [("ray", ⟨⟨"a", some "ray"⟩, []⟩),
          ("ray", ⟨⟨"a", some "ray"⟩, []⟩)], [], [], []⟩,
        [.list_service_account "ray" "a"], []) ∧
    _configure_autoscaler_role "ray"
        (⟨true, some "ray", none, some ⟨⟨"r", some "ray"⟩, []⟩, none, none⟩ :
          ProviderConfig)
        ⟨[], [], [("ray", ⟨⟨"r", some "ray"⟩, []⟩),
          ("ray", ⟨⟨"r", some "ray"⟩, []⟩)], [], []⟩ =
      (.error .assertionFailed,
        ⟨[], [], [("ray", ⟨⟨"r", some "ray"⟩, []⟩),
          ("ray", ⟨⟨"r", some "ray"⟩, []⟩)], [], []⟩,
        [.list_role "ray" "r"], []) ∧
    _configure_autoscaler_role_binding "ray"
        (⟨true, some "ray", none, none, some ⟨⟨"b", some "ray"⟩, [], []⟩,
          none⟩ : ProviderConfig)
        ⟨[], [], [], [("ray", ⟨⟨"b", some "ray"⟩, [], []⟩),
          ("ray", ⟨⟨"b", some "ray"⟩, [], []⟩)], []⟩ =
      (.error .assertionFailed,
        ⟨[], [], [], [("ray", ⟨⟨"b", some "ray"⟩, [], []⟩),
          ("ray", ⟨⟨"b", some "ray"⟩, [], []⟩)], []⟩,
        [.list_role_binding "ray" "b"], []) ∧
    _configure_services "ray"
        (⟨true, some "ray", none, none, none,
          some [⟨⟨"s", some "ray"⟩, []⟩]⟩ : ProviderConfig)
        ⟨[], [], [], [], [("ray", ⟨⟨"s", some "ray"⟩, []⟩),
          ("ray", ⟨⟨"s", some "ray"⟩, []⟩)]⟩ =
      (.error .assertionFailed,
        ⟨[], [], [], [], [("ray", ⟨⟨"s", some "ray"⟩, []⟩),
          ("ray", ⟨⟨"s", some "ray"⟩, []⟩)]⟩,
        [.list_service "ray" "s"], []) :=
  ⟨C9_duplicate_matches_fatal.1 ⟨false⟩ _ _ "ray" "ray" "ray" [] rfl rfl
      (by decide),
    C9_duplicate_matches_fatal.2.1 "ray" _ _ ⟨⟨"a", some "ray"⟩, []⟩
      ⟨⟨"a", some "ray"⟩, []⟩ ("ray", ⟨⟨"a", some "ray"⟩, []⟩)
      ("ray", ⟨⟨"a", some "ray"⟩, []⟩) [] rfl rfl (by decide),
    C9_duplicate_matches_fatal.2.2.1 "ray" _ _ ⟨⟨"r", some "ray"⟩, []⟩
      ⟨⟨"r", some "ray"⟩, []⟩ ("ray", ⟨⟨"r", some "ray"⟩, []⟩)
      ("ray", ⟨⟨"r", some "ray"⟩, []⟩) [] rfl rfl (by decide),
    C9_duplicate_matches_fatal.2.2.2.1 "ray" _ _ ⟨⟨"b", some "ray"⟩, [], []⟩
      ⟨⟨"b", some "ray"⟩, [], []⟩ ("ray", ⟨⟨"b", some "ray"⟩, [], []⟩)
      ("ray", ⟨⟨"b", some "ray"⟩, [], []⟩) [] rfl rfl (by decide),
    C9_duplicate_matches_fatal.2.2.2.2 "ray" _ _ ⟨⟨"s", some "ray"⟩, []⟩
      ⟨⟨"s", some "ray"⟩, []⟩ [] ("ray", ⟨⟨"s", some "ray"⟩, []⟩)
      ("ray", ⟨⟨"s", some "ray"⟩, []⟩) [] rfl rfl (by decide)⟩

/-- The empty cluster. -/
def emptyCluster : ClusterState := ⟨[], [], [], [], []⟩

/-- A configuration declaring a service account and two services, both
without a namespace field. -/
def cfgTwoServices : Config :=
  ⟨⟨true, some "ray", some ⟨⟨"autoscaler", none⟩, []⟩, none, none,
    some [⟨⟨"svc-a", none⟩, [("port", "6379")]⟩,
      ⟨⟨"svc-b", none⟩, [("port", "8076")]⟩]⟩, none⟩

/-- C2, evaluated at a failing input: two services are declared, the first
already exists with an equal spec, and the loop's `return` (config.py line
254) exits `_configure_services` after the first `UsedExisting`, so the
second declared service receives no reconcile outcome at all (the outcome
list has one entry for two declared services) although bootstrap reports
success. -/
theorem C2_service_loop_aborts_after_used_existing :
    (bootstrap_kubernetes ⟨false⟩
        ⟨⟨true, some "ray", none, none, none,
          some [⟨⟨"web", none⟩, [("port", "8265")]⟩,
            ⟨⟨"dash", none⟩, [("port", "8266")]⟩]⟩, none⟩
        ⟨["ray"], [], [], [],
          [("ray", ⟨⟨"web", some "ray"⟩, [("port", "8265")]⟩)]⟩).1 =
      .ok (⟨⟨true, some "ray", none, none, none,
          some [⟨⟨"web", some "ray"⟩, [("port", "8265")]⟩,
            ⟨⟨"dash", none⟩, [("port", "8266")]⟩]⟩, none⟩,
        ⟨.usedExisting, .Skipped, .Skipped, .Skipped, [.UsedExisting]⟩) := by
  decide

/-- C3, evaluated at a failing input: after a first bootstrap run from the
empty cluster, a second run against the state the first one left yields
`UsedExisting` for the namespace, the service account and the first service,
then exits the services loop, so the second declared service gets no outcome
at all on the second run (the claim expects `UsedExisting` for every
configured resource); the call trace of the second run shows the three
existence queries and no create or update call. -/
theorem C3_second_run_drops_later_services :
    (bootstrap_kubernetes ⟨false⟩ cfgTwoServices
        (bootstrap_kubernetes ⟨false⟩ cfgTwoServices emptyCluster).2.1).1 =
      .ok (⟨⟨true, some "ray", some ⟨⟨"autoscaler", some "ray"⟩, []⟩, none,
          none,
          some [⟨⟨"svc-a", some "ray"⟩, [("port", "6379")]⟩,
            ⟨⟨"svc-b", none⟩, [("port", "8076")]⟩]⟩, none⟩,
        ⟨.usedExisting, .UsedExisting, .Skipped, .Skipped, [.UsedExisting]⟩) ∧
    (bootstrap_kubernetes ⟨false⟩ cfgTwoServices
        (bootstrap_kubernetes ⟨false⟩ cfgTwoServices emptyCluster).2.1).2.2.1 =
      [.list_namespace "ray", .list_service_account "ray" "autoscaler",
        .list_service "ray" "svc-a"] := by
  constructor <;> decide

/-- C5, evaluated at a failing input: the second declared service omits its
namespace field, the first one already exists with an equal spec, and after
the successful bootstrap the second service's namespace is still absent
(`none`) instead of the provider namespace, because the loop's early `return`
skipped the back-fill of every service after the first `UsedExisting`. -/
theorem C5_backfill_missed_for_later_service :
    (bootstrap_kubernetes ⟨false⟩
        ⟨⟨true, some "ray", none, none, none,
          some [⟨⟨"head-svc", none⟩, [("port", "10001")]⟩,
            ⟨⟨"worker-svc", none⟩, [("port", "10002")]⟩]⟩, none⟩
        ⟨["ray"], [], [], [],
          [("ray", ⟨⟨"head-svc", some "ray"⟩, [("port", "10001")]⟩)]⟩).1 =
      .ok (⟨⟨true, some "ray", none, none, none,
          some [⟨⟨"head-svc", some "ray"⟩, [("port", "10001")]⟩,
            ⟨⟨"worker-svc", none⟩, [("port", "10002")]⟩]⟩, none⟩,
        ⟨.usedExisting, .Skipped, .Skipped, .Skipped, [.UsedExisting]⟩) := by
  decide

/-- C6, evaluated at a failing input: the second declared service carries the
conflicting namespace `other` while the provider namespace is `ray`, yet
bootstrap succeeds with no `InvalidNamespaceError`, because the loop's early
`return` after the first service's `UsedExisting` skips the namespace
validation of every later service. -/
theorem C6_conflicting_namespace_not_rejected :
    (bootstrap_kubernetes ⟨false⟩
        ⟨⟨true, some "ray", none, none, none,
          some [⟨⟨"front", none⟩, [("port", "80")]⟩,
            ⟨⟨"back", some "other"⟩, [("port", "81")]⟩]⟩, none⟩
        ⟨["ray"], [], [], [],
          [("ray", ⟨⟨"front", some "ray"⟩, [("port", "80")]⟩)]⟩).1 =
      .ok (⟨⟨true, some "ray", none, none, none,
          some [⟨⟨"front", some "ray"⟩, [("port", "80")]⟩,
            ⟨⟨"back", some "other"⟩, [("port", "81")]⟩]⟩, none⟩,
        ⟨.usedExisting, .Skipped, .Skipped, .Skipped, [.UsedExisting]⟩) := by
  decide

end RayKube
